import Mathlib

/-!
Verification of the Game_Store lobby server against its specification.

The definitions below are a shallow embedding of the Python sources:
`src/server/main_server.py` (framing, session registry, room directory,
match launcher), `src/server/database_server.py` (document store), and
`src/player/player.py` (correlation client).  Machine integers are `Nat`
with explicit bounds, byte strings are `List Nat`, Python dicts keyed by
strings are association lists or `String → Option _` maps, and fallible
code returns `Except`/`Option`.
-/

set_option maxHeartbeats 1000000

namespace GameStore

/-! ## Framing layer

`send_message` / `recv_message` / `recv_exact`, src/server/main_server.py
lines 14-71 (byte-identical copies live in player.py and
database_server.py).  A message's UTF-8 JSON bytes are cut into chunks of
at most `CHUNK_SIZE` bytes, each preceded by a 4-byte big-endian length,
and closed by a 4-byte zero marker. -/

def CHUNK_SIZE : Nat := 65536

/-- Big-endian 4-byte encoding of a chunk length: `struct.pack` with format !I. -/
def pack32 (n : Nat) : List Nat :=
  [n / 16777216 % 256, n / 65536 % 256, n / 256 % 256, n % 256]

/-- Big-endian decoding of a 4-byte length: `struct.unpack` with format !I. -/
def unpack32 (bs : List Nat) : Nat :=
  match bs with
  | [a, b, c, d] => ((a * 256 + b) * 256 + c) * 256 + d
  | _ => 0

theorem pack32_length (n : Nat) : (pack32 n).length = 4 := rfl

theorem unpack32_pack32 (n : Nat) (h : n < 4294967296) :
    unpack32 (pack32 n) = n := by
  simp only [pack32, unpack32]
  omega

/-- The chunking loop of `send_message` (lines 21-34): emit
length-prefixed chunks of at most `CHUNK_SIZE` bytes until the data is
exhausted, then the zero end marker. -/
def sendChunks (data : List Nat) : List Nat :=
  if data.length = 0 then pack32 0
  else
    pack32 (min CHUNK_SIZE data.length) ++ data.take CHUNK_SIZE ++
      sendChunks (data.drop CHUNK_SIZE)
termination_by data.length
decreasing_by
  simp only [List.length_drop, CHUNK_SIZE]
  omega

/-- The three ways `recv_message` can come back: `None` on a closed
connection, a `ValueError` on an oversized declared chunk length, or the
reassembled message bytes. -/
inductive RecvResult where
  | closed : RecvResult
  | protocolError : RecvResult
  | msg : List Nat → RecvResult
deriving DecidableEq

/-- The receive loop of `recv_message` (lines 40-59) over an explicit byte
stream: read a 4-byte length (EOF mid-read gives `closed`, mirroring
`recv_exact` returning `None`); a zero length ends the message; a length
above `CHUNK_SIZE` raises; otherwise consume that many bytes and loop,
accumulating chunks. -/
def recvMessageAux (stream acc : List Nat) : RecvResult :=
  if stream.length < 4 then .closed
  else if unpack32 (stream.take 4) = 0 then .msg acc
  else if CHUNK_SIZE < unpack32 (stream.take 4) then .protocolError
  else if (stream.drop 4).length < unpack32 (stream.take 4) then .closed
  else
    recvMessageAux ((stream.drop 4).drop (unpack32 (stream.take 4)))
      (acc ++ (stream.drop 4).take (unpack32 (stream.take 4)))
termination_by stream.length
decreasing_by
  simp only [List.length_drop]
  omega

/-- `recv_message` on a byte stream (lines 36-62, without the JSON parse). -/
def recvMessageBytes (stream : List Nat) : RecvResult :=
  recvMessageAux stream []

/-- Reading the zero end marker finishes the message with the accumulated bytes. -/
theorem recvMessageAux_endMarker (acc : List Nat) :
    recvMessageAux (pack32 0) acc = RecvResult.msg acc := by
  rw [recvMessageAux]
  simp [pack32, unpack32]

/-- Reading one well-formed length-prefixed chunk appends it to the
accumulator and continues on the rest of the stream. -/
theorem recvMessageAux_step (chunk rest acc : List Nat)
    (h1 : chunk ≠ []) (h2 : chunk.length ≤ CHUNK_SIZE) :
    recvMessageAux (pack32 chunk.length ++ (chunk ++ rest)) acc
      = recvMessageAux rest (acc ++ chunk) := by
  have hbound : chunk.length < 4294967296 := by
    have hc : CHUNK_SIZE = 65536 := rfl
    omega
  have h0 : chunk.length ≠ 0 := by
    simpa using h1
  have htake : (pack32 chunk.length ++ (chunk ++ rest)).take 4 = pack32 chunk.length :=
    List.take_left' (pack32_length _)
  have hdrop : (pack32 chunk.length ++ (chunk ++ rest)).drop 4 = chunk ++ rest :=
    List.drop_left' (pack32_length _)
  have hlen : (pack32 chunk.length ++ (chunk ++ rest)).length = 4 + (chunk ++ rest).length := by
    simp only [List.length_append, pack32_length]
  rw [recvMessageAux, htake, hdrop, unpack32_pack32 _ hbound, hlen]
  have hc2 : ¬ CHUNK_SIZE < chunk.length := Nat.not_lt.mpr h2
  have hr : ¬ (chunk ++ rest).length < chunk.length := by
    simp [List.length_append]
  rw [if_neg (by omega), if_neg h0, if_neg hc2, if_neg hr]
  all_goals rw [List.take_left, List.drop_left]

/-- Decoding the chunk stream produced by encoding any byte string
reassembles exactly that byte string. -/
theorem recvMessageAux_sendChunks (data acc : List Nat) :
    recvMessageAux (sendChunks data) acc = RecvResult.msg (acc ++ data) := by
  by_cases h0 : data.length = 0
  · have hd : data = [] := List.length_eq_zero.mp h0
    subst hd
    rw [sendChunks]
    simpa using recvMessageAux_endMarker acc
  · have hne : data ≠ [] := by
      intro h
      exact h0 (by simp [h])
    have hchunk_ne : data.take CHUNK_SIZE ≠ [] := by
      simp only [ne_eq, List.take_eq_nil_iff]
      push_neg
      exact ⟨by decide, hne⟩
    have hchunk_len : (data.take CHUNK_SIZE).length = min CHUNK_SIZE data.length := by
      simp [List.length_take]
    rw [sendChunks, if_neg h0, ← hchunk_len, List.append_assoc]
    rw [recvMessageAux_step _ _ _ hchunk_ne (by rw [hchunk_len]; omega)]
    rw [recvMessageAux_sendChunks (data.drop CHUNK_SIZE) (acc ++ data.take CHUNK_SIZE)]
    rw [List.append_assoc, List.take_append_drop]
termination_by data.length
decreasing_by
  simp only [List.length_drop, CHUNK_SIZE]
  omega

/-- `recvMessageBytes` is a left inverse of `sendChunks`: the frame layer is
lossless for every byte string, in particular ones longer than one
`CHUNK_SIZE` chunk. -/
theorem recvMessageBytes_sendChunks (data : List Nat) :
    recvMessageBytes (sendChunks data) = RecvResult.msg data := by
  simpa using recvMessageAux_sendChunks data []

/-- Result of `recv_message` at the JSON-value level: the byte-level
outcomes plus a parse failure when `json.loads` rejects the bytes. -/
inductive RecvValue (α : Type) where
  | closed : RecvValue α
  | protocolError : RecvValue α
  | parseFailed : RecvValue α
  | msg : α → RecvValue α
deriving DecidableEq

/-- `send_message` (lines 16-34): serialise the value with `json.dumps`
(abstracted as `dumps`, a UTF-8 byte encoding) and emit the chunk stream. -/
def sendMessage {α : Type} (dumps : α → List Nat) (v : α) : List Nat :=
  sendChunks (dumps v)

/-- Interpretation of a byte-level receive outcome at the value level:
`json.loads` (abstracted as `loads`) runs on the reassembled bytes. -/
def parseResult {α : Type} (loads : List Nat → Option α) : RecvResult → RecvValue α
  | .closed => .closed
  | .protocolError => .protocolError
  | .msg bs =>
    match loads bs with
    | some v => .msg v
    | Option.none => .parseFailed

/-- `recv_message` (lines 36-62): reassemble the chunks and parse them with
`json.loads` (abstracted as `loads`). -/
def recvMessage {α : Type} (loads : List Nat → Option α) (stream : List Nat) :
    RecvValue α :=
  parseResult loads (recvMessageAux stream [])

/-- C2: for every JSON-serialisable value `v` — `dumps`/`loads` abstract
Python's `json.dumps`/`json.loads`, assumed only to round-trip on the
values the program exchanges — decoding the byte stream produced by
encoding `v` yields exactly `v`, including when the encoding spans several
length-prefixed chunks plus the zero terminator. -/
theorem recv_send_roundtrip {α : Type} (dumps : α → List Nat)
    (loads : List Nat → Option α) (hjson : ∀ v, loads (dumps v) = some v)
    (v : α) :
    recvMessage loads (sendMessage dumps v) = RecvValue.msg v := by
  unfold recvMessage sendMessage
  rw [recvMessageAux_sendChunks]
  simp [parseResult, hjson]

/-- Witness for C2 at a concrete serialisable value, discharging the
`json.dumps`/`json.loads` round-trip hypothesis on a three-byte encoding. -/
theorem recv_send_roundtrip_witness :
    recvMessage (fun bs => if bs = [65, 66, 67] then some () else Option.none)
      (sendMessage (fun _ : Unit => [65, 66, 67]) ())
      = RecvValue.msg () := by
  exact recv_send_roundtrip _ _ (fun v => by cases v; simp) ()

/-! ## Python values and reply dicts -/

/-- A JSON-style Python value, enough for the reply envelopes the lobby
builds. -/
inductive PyVal where
  | str : String → PyVal
  | int : Int → PyVal
  | bool : Bool → PyVal
  | list : List PyVal → PyVal
  | dict : List (String × PyVal) → PyVal
  | pynone : PyVal

/-- Python truthiness of a value, as used by bare `if` tests. -/
def PyVal.truthy : PyVal → Bool
  | .str s => !s.isEmpty
  | .int n => n != 0
  | .bool b => b
  | .list l => !l.isEmpty
  | .dict l => !l.isEmpty
  | .pynone => false

/-- The string content of a value (the cases the lobby stores as user
names are always strings). -/
def PyVal.asStr : PyVal → String
  | .str s => s
  | _ => ""

/-- `d.get(key)` on a string-keyed dict modelled as an association list. -/
def slookup : List (String × PyVal) → String → Option PyVal
  | [], _ => Option.none
  | (k, v) :: rest, key => if k = key then some v else slookup rest key

/-! ## Document store

`Database` in src/server/database_server.py: one auto-increment-keyed
document map per collection. -/

/-- A document of the `Player`/`Developer` collections as `register`
creates it: the store-assigned `id` plus the fields the lobby writes
(`games_played`, present only for players, is irrelevant to every claim
and omitted). -/
structure Doc where
  id : Nat
  userName : String
  passwordHash : String
deriving DecidableEq

/-- The document store: per-collection documents in insertion order and
per-collection auto-increment counters (`Database.collections` /
`Database.next_ids`). -/
structure DBState where
  docs : String → List Doc
  next_ids : String → Nat

/-- `Database.query` (database_server.py lines 161-174) under the filter
the lobby sends, an exact match on the `userName` field: the matching
documents in insertion order — the empty list when none match. -/
def dbQuery (db : DBState) (collection name : String) : List Doc :=
  (db.docs collection).filter (fun d => d.userName = name)

/-- `Database.create` (database_server.py lines 108-121): assign the
collection's next id, append the document, bump the counter, return the
stored document. -/
def dbCreate (db : DBState) (collection userName passwordHash : String) :
    Doc × DBState :=
  let doc : Doc :=
    { id := db.next_ids collection, userName := userName, passwordHash := passwordHash }
  (doc,
   { docs := fun c => if c = collection then db.docs c ++ [doc] else db.docs c,
     next_ids := fun c => if c = collection then db.next_ids c + 1 else db.next_ids c })

/-! ## Lobby state -/

/-- One room dict as built by `create_room` (main_server.py lines
466-475). -/
structure Room where
  host : String
  game_name : String
  version : String
  visibility : String
  members : List String
  room_max : Nat
  room_min : Nat
  status : String
deriving DecidableEq

/-- The lobby's in-memory state (`MainServer.__init__`, lines 109-128):
the two role maps (name → connection, connections numbered), the room
directory with its id counter, the match-port counter, and the
running-match registry (room id → allocated port and roster). -/
structure ServerState where
  online_players : String → Option Nat
  online_developers : String → Option Nat
  next_room_id : Nat
  rooms : Nat → Option Room
  next_game_port : Nat
  games : Nat → Option (Nat × List String)

/-- Dict assignment on a string-keyed map. -/
def supd {β : Type} (m : String → Option β) (k : String) (v : β) :
    String → Option β :=
  fun q => if q = k then some v else m q

/-- Dict deletion on a string-keyed map (no-op when the key is absent). -/
def sdel {β : Type} (m : String → Option β) (k : String) : String → Option β :=
  fun q => if q = k then Option.none else m q

/-- Dict assignment on an integer-keyed map. -/
def nupd {β : Type} (m : Nat → Option β) (k : Nat) (v : β) : Nat → Option β :=
  fun q => if q = k then some v else m q

/-- Dict deletion on an integer-keyed map. -/
def ndel {β : Type} (m : Nat → Option β) (k : Nat) : Nat → Option β :=
  fun q => if q = k then Option.none else m q

/-- The exceptions the handlers below can raise. -/
inductive PyExn where
  | keyError : PyExn
  | indexError : PyExn
deriving DecidableEq

/-- A lobby state with no one online, no rooms, and the initial counters
(room ids start at 1, match ports at 44848). -/
def initialState : ServerState :=
  { online_players := fun _ => Option.none
    online_developers := fun _ => Option.none
    next_room_id := 1
    rooms := fun _ => Option.none
    next_game_port := 44848
    games := fun _ => Option.none }

/-! ## Session registry: login, logout, register -/

/-- The distinct reply dicts `login` can produce (lines 265-296). -/
inductive LoginResp where
  | alreadyOnline : LoginResp
  | notFound : LoginResp
  | badCredentials : LoginResp
  | ok : List Doc → LoginResp
deriving DecidableEq

/-- `login` (lines 265-296).  `hashFn` abstracts
`hashlib.sha256(password.encode()).hexdigest()`.  The already-online
guard on line 270 consults `online_players` regardless of the requested
role, exactly as the source does; on success the connection is recorded
in the map matching the role (a role that is neither Player nor
Developer still gets the success reply). -/
def login (hashFn : String → String) (db : DBState) (s : ServerState)
    (name password role : String) (sock : Nat) : LoginResp × ServerState :=
  if (s.online_players name).isSome then (.alreadyOnline, s)
  else
    match dbQuery db role name with
    | [] => (.notFound, s)
    | u :: us =>
      if u.passwordHash ≠ hashFn password then (.badCredentials, s)
      else if role = "Player" then
        (.ok (u :: us), { s with online_players := supd s.online_players name sock })
      else if role = "Developer" then
        (.ok (u :: us), { s with online_developers := supd s.online_developers name sock })
      else (.ok (u :: us), s)

/-- The JSON value of one stored document as it appears inside a reply. -/
def docToPyVal (d : Doc) : PyVal :=
  .dict [("id", .int d.id), ("userName", .str d.userName),
         ("passwordHash", .str d.passwordHash)]

/-- The LOGIN reply dict with its exact keys: success/error on failure,
success/data on success.  No branch carries a `userName` key. -/
def loginEnvelope : LoginResp → List (String × PyVal)
  | .alreadyOnline => [("success", .bool false), ("error", .str "User already online")]
  | .notFound => [("success", .bool false), ("error", .str "User not found")]
  | .badCredentials => [("success", .bool false), ("error", .str "Invalid password")]
  | .ok docs => [("success", .bool true), ("data", .list (docs.map docToPyVal))]

/-- `handle_client`'s bookkeeping after a LOGIN request (lines 155-156):
if the reply dict is truthy (non-empty), `current_user` is reassigned to
`response.get('userName')` — `None` whenever the key is absent. -/
def currentUserAfterLogin (resp : List (String × PyVal)) (current : Option PyVal) :
    Option PyVal :=
  if !resp.isEmpty then slookup resp "userName" else current

/-- The `finally` block of `handle_client` (lines 159-167): when
`current_user` is truthy, remove it from both role maps. -/
def disconnectCleanup (current : Option PyVal) (s : ServerState) : ServerState :=
  match current with
  | some v =>
    if v.truthy then
      { s with
        online_players := sdel s.online_players v.asStr,
        online_developers := sdel s.online_developers v.asStr }
    else s
  | Option.none => s

/-- One complete serving-loop session (`handle_client`, lines 146-167)
consisting of a single LOGIN request followed by EOF: process the
request, update `current_user` from the reply dict, then run the
disconnect cleanup. -/
def handleClientLoginSession (hashFn : String → String) (db : DBState)
    (s : ServerState) (name password role : String) (sock : Nat) : ServerState :=
  let r := login hashFn db s name password role sock
  disconnectCleanup (currentUserAfterLogin (loginEnvelope r.1) Option.none) r.2

/-- A store holding exactly one registered player, alice. -/
def aliceDB : DBState :=
  { docs := fun c => if c = "Player" then [⟨1, "alice", "pw"⟩] else []
    next_ids := fun _ => 2 }

/-- C1 at its failing input: a connection performs one successful LOGIN
as player alice and then disconnects.  The LOGIN reply dict carries no
`userName` key, so `current_user` remains `None` and the finally-block
cleanup removes nothing: alice is still mapped in `online_players` after
the serving loop ends, and a further LOGIN as alice fails AlreadyOnline
instead of succeeding — the opposite of what the claim requires. -/
theorem disconnect_cleanup_misses_identity :
    (login (fun p => p) aliceDB initialState "alice" "pw" "Player" 5).1
        = LoginResp.ok [⟨1, "alice", "pw"⟩] ∧
    (handleClientLoginSession (fun p => p) aliceDB initialState
        "alice" "pw" "Player" 5).online_players "alice" = some 5 ∧
    (login (fun p => p) aliceDB
        (handleClientLoginSession (fun p => p) aliceDB initialState "alice" "pw" "Player" 5)
        "alice" "pw" "Player" 6).1 = LoginResp.alreadyOnline := by
  exact ⟨rfl, rfl, rfl⟩

/-- A store holding exactly one registered developer, dev. -/
def devDB : DBState :=
  { docs := fun c => if c = "Developer" then [⟨1, "dev", "pw"⟩] else []
    next_ids := fun _ => 2 }

/-- The lobby state in which developer dev is already online, bound to
connection 7, and nobody else is. -/
def devOnlineState : ServerState :=
  { initialState with
      online_developers := fun q => if q = "dev" then some 7 else Option.none }

/-- C5 at its failing input: dev is already mapped in
`online_developers`, yet a second developer LOGIN with the correct
password succeeds — the already-online guard consults `online_players`
only — and rebinds dev to the new connection, changing the developer
map, where the claim requires an AlreadyOnline failure with both maps
unchanged. -/
theorem developer_relogin_not_rejected :
    (login (fun p => p) devDB devOnlineState "dev" "pw" "Developer" 9).1
        = LoginResp.ok [⟨1, "dev", "pw"⟩] ∧
    (login (fun p => p) devDB devOnlineState "dev" "pw" "Developer" 9).2.online_developers
        "dev" = some 9 := by
  exact ⟨rfl, rfl⟩

/-- The reply dicts `register` can produce before its guard raises
(lines 224-263). -/
inductive RegisterResp where
  | alreadyRegistered : RegisterResp
  | ok : RegisterResp
deriving DecidableEq

/-- `register` (lines 224-263).  The guard `if existing[0]:` indexes the
query-result list before checking anything, so an empty result — a fresh
(role, name) — raises `IndexError`; a non-empty result's first document
is a non-empty dict, hence truthy, and the name is reported taken.  The
CREATE branch is reachable only if the first stored document were falsy,
which store-created documents (always carrying an id) never are. -/
def register (hashFn : String → String) (db : DBState)
    (name password role : String) : Except PyExn (RegisterResp × DBState) :=
  match dbQuery db role name with
  | [] => Except.error PyExn.indexError
  | d :: _ =>
    if (docToPyVal d).truthy then Except.ok (RegisterResp.alreadyRegistered, db)
    else Except.ok (RegisterResp.ok, (dbCreate db role name (hashFn password)).2)

/-- `handle_client`'s loop survives a request iff processing raised no
exception: the try block has no except clause, so an exception runs only
the finally cleanup and the serving loop ends, the connection closing
without a reply. -/
def servingLoopSurvives {α : Type} : Except PyExn α → Bool
  | .ok _ => true
  | .error _ => false

/-- C9: a REGISTER request for a (role, name) with no existing record
makes `register` index the empty query result and raise IndexError;
no reply (in particular no success reply) is produced and the serving
loop of that connection ends. -/
theorem register_fresh_raises_indexerror (hashFn : String → String)
    (db : DBState) (name password role : String)
    (_hrole : role = "Player" ∨ role = "Developer")
    (hfresh : dbQuery db role name = []) :
    register hashFn db name password role = Except.error PyExn.indexError ∧
    servingLoopSurvives (register hashFn db name password role) = false := by
  unfold register
  rw [hfresh]
  exact ⟨rfl, rfl⟩

/-- Witness for C9: registering bob as a Player against an empty store. -/
theorem register_fresh_raises_indexerror_witness :
    register (fun p => p) ⟨fun _ => [], fun _ => 1⟩ "bob" "pw" "Player"
        = Except.error PyExn.indexError ∧
    servingLoopSurvives (register (fun p => p) ⟨fun _ => [], fun _ => 1⟩ "bob" "pw" "Player")
        = false := by
  exact register_fresh_raises_indexerror (fun p => p) ⟨fun _ => [], fun _ => 1⟩
    "bob" "pw" "Player" (Or.inl rfl) rfl

/-! ## Room directory -/

/-- The reply dicts `join_room` can produce (lines 498-508). -/
inductive JoinResp where
  | roomFull : JoinResp
  | joined : JoinResp
deriving DecidableEq

/-- `join_room` (lines 498-508).  The room dict is indexed directly —
`self.rooms[room_id]` — so an absent room id raises `KeyError` before
any reply is built.  A full room (member count at `room_max`, compared
with ≥) is rejected even for an existing member; an already-present
player is left alone; otherwise the player is appended.  The last two
cases return the same success reply. -/
def join_room (s : ServerState) (player : String) (room_id : Nat) :
    Except PyExn (JoinResp × ServerState) :=
  match s.rooms room_id with
  | Option.none => Except.error PyExn.keyError
  | some room =>
    if room.room_max ≤ room.members.length then Except.ok (JoinResp.roomFull, s)
    else if player ∈ room.members then Except.ok (JoinResp.joined, s)
    else
      let room2 : Room := { room with members := room.members ++ [player] }
      Except.ok (JoinResp.joined, { s with rooms := nupd s.rooms room_id room2 })

/-- A lobby state holding exactly one room, with id 1. -/
def oneRoomState (r : Room) : ServerState :=
  { initialState with rooms := fun q => if q = 1 then some r else Option.none }

/-- A two-seat room hosted by alice with both seats taken. -/
def fullRoom : Room :=
  ⟨"alice", "Duel_25", "1.0.0", "Public", ["alice", "bob"], 2, 2, "idle"⟩

/-- A two-seat room hosted by alice with one seat free. -/
def halfRoom : Room :=
  ⟨"alice", "Duel_25", "1.0.0", "Public", ["alice"], 2, 2, "idle"⟩

/-- C4 at its failing input: a JOIN_ROOM for an absent room id raises
`KeyError` — it does not produce the claimed RoomNotFound reply, and the
uncaught exception ends that connection's serving loop.  The remaining
three behaviours of the claim do hold: a full room answers RoomFull, an
existing member is a success no-op, and otherwise the player is
appended. -/
theorem join_room_absent_raises_keyerror :
    join_room initialState "carol" 1 = Except.error PyExn.keyError ∧
    servingLoopSurvives (join_room initialState "carol" 1) = false ∧
    join_room (oneRoomState fullRoom) "carol" 1
        = Except.ok (JoinResp.roomFull, oneRoomState fullRoom) ∧
    join_room (oneRoomState halfRoom) "alice" 1
        = Except.ok (JoinResp.joined, oneRoomState halfRoom) ∧
    (join_room (oneRoomState halfRoom) "bob" 1).map (fun r => (r.1, r.2.rooms 1))
        = Except.ok (JoinResp.joined,
            some ⟨"alice", "Duel_25", "1.0.0", "Public", ["alice", "bob"], 2, 2, "idle"⟩) := by
  exact ⟨rfl, rfl, rfl, rfl, rfl⟩

/-! ## Match launcher -/

/-- The outcomes of `start_game`'s guarded critical section (lines
562-581). -/
inductive StartResp where
  | forbidden : StartResp
  | notEnoughPlayers : StartResp
  | alreadyStarting : StartResp
  | started : Nat → StartResp
deriving DecidableEq

/-- The critical section of `start_game` (lines 562-581), executed
entirely under `room_lock` in the source and therefore modelled as one
atomic state transition: index the room (`KeyError` when absent), then
test requester-is-host, member count against `room_min`, and status, in
that order, returning the matching error reply on the first failure;
only when all three guards pass allocate the next match port, bump the
counter and set the room's status to playing. -/
def start_game_cs (s : ServerState) (room_id : Nat) (player_name : String) :
    Except PyExn (StartResp × ServerState) :=
  match s.rooms room_id with
  | Option.none => Except.error PyExn.keyError
  | some room =>
    if player_name ≠ room.host then Except.ok (StartResp.forbidden, s)
    else if room.members.length < room.room_min then
      Except.ok (StartResp.notEnoughPlayers, s)
    else if room.status = "playing" then Except.ok (StartResp.alreadyStarting, s)
    else
      Except.ok (StartResp.started s.next_game_port,
        { s with
            next_game_port := s.next_game_port + 1,
            rooms := nupd s.rooms room_id { room with status := "playing" } })

/-- C3: for every existing room the guards run in the order host,
member count, status, the first failing guard's error is returned with
the state untouched, and only when all three pass is the status set to
playing and a port allocated — the whole check-and-set being the single
atomic transition `start_game_cs`, as the source keeps it under one
acquisition of `room_lock`. -/
theorem start_game_guard_order (s : ServerState) (room_id : Nat) (room : Room)
    (hroom : s.rooms room_id = some room) (p : String) :
    (p ≠ room.host → start_game_cs s room_id p = Except.ok (StartResp.forbidden, s)) ∧
    (p = room.host → room.members.length < room.room_min →
      start_game_cs s room_id p = Except.ok (StartResp.notEnoughPlayers, s)) ∧
    (p = room.host → ¬ room.members.length < room.room_min → room.status = "playing" →
      start_game_cs s room_id p = Except.ok (StartResp.alreadyStarting, s)) ∧
    (p = room.host → ¬ room.members.length < room.room_min → room.status ≠ "playing" →
      start_game_cs s room_id p
        = Except.ok (StartResp.started s.next_game_port,
            { s with
                next_game_port := s.next_game_port + 1,
                rooms := nupd s.rooms room_id { room with status := "playing" } })) := by
  simp only [start_game_cs, hroom]
  refine ⟨?_, ?_, ?_, ?_⟩
  · intro hne
    rw [if_pos hne]
  · intro he hlt
    rw [if_neg (not_not_intro he), if_pos hlt]
  · intro he hge hpl
    rw [if_neg (not_not_intro he), if_neg hge, if_pos hpl]
  · intro he hge hnp
    rw [if_neg (not_not_intro he), if_neg hge, if_neg hnp]

/-- Witness for C3: in the one-room lobby, a non-host requester is
refused with Forbidden and the state is unchanged. -/
theorem start_game_guard_order_witness :
    start_game_cs (oneRoomState fullRoom) 1 "mallory"
        = Except.ok (StartResp.forbidden, oneRoomState fullRoom) := by
  exact (start_game_guard_order (oneRoomState fullRoom) 1 fullRoom rfl "mallory").1
    (by decide)

/-- `logout` (lines 298-311).  `self.online_players[name]` is indexed
directly, raising `KeyError` when the name is absent; a present
connection object is always truthy, so presence means removal and a
success reply.  Unknown roles fall through to the failure reply. -/
def logout (s : ServerState) (name role : String) : Except PyExn (Bool × ServerState) :=
  if role = "Player" then
    match s.online_players name with
    | Option.none => Except.error PyExn.keyError
    | some _ => Except.ok (true, { s with online_players := sdel s.online_players name })
  else if role = "Developer" then
    match s.online_developers name with
    | Option.none => Except.error PyExn.keyError
    | some _ => Except.ok (true, { s with online_developers := sdel s.online_developers name })
  else Except.ok (false, s)

/-- `create_room` (lines 451-477): allocate the next room id under the
room lock and store the fresh room with the host as sole member, idle
status, and capacity fields read from the game's config file (passed in
here as `maxp`/`minp`). -/
def create_room (s : ServerState) (host vis gname ver : String) (maxp minp : Nat) :
    Nat × ServerState :=
  (s.next_room_id,
   { s with
       next_room_id := s.next_room_id + 1,
       rooms := nupd s.rooms s.next_room_id
         ⟨host, gname, ver, vis, [host], maxp, minp, "idle"⟩ })

/-- The reply dicts `leave_room` can produce (lines 510-527). -/
inductive LeaveResp where
  | roomNotFound : LeaveResp
  | left : LeaveResp
deriving DecidableEq

/-- `leave_room` (lines 510-527): an absent room is reported (this
handler does check); a member is removed, the room is deleted when it
empties, and the first remaining member is promoted when the host left;
a non-member gets the success reply with no change. -/
def leave_room (s : ServerState) (player : String) (room_id : Nat) :
    LeaveResp × ServerState :=
  match s.rooms room_id with
  | Option.none => (.roomNotFound, s)
  | some room =>
    if player ∈ room.members then
      match room.members.erase player with
      | [] => (.left, { s with rooms := ndel s.rooms room_id })
      | m :: ms =>
        if player = room.host then
          let room2 : Room := { room with members := m :: ms, host := m }
          (.left, { s with rooms := nupd s.rooms room_id room2 })
        else
          let room2 : Room := { room with members := m :: ms }
          (.left, { s with rooms := nupd s.rooms room_id room2 })
    else (.left, s)

/-- The bookkeeping of `start_game` after a successful critical section
(lines 601-606): record the match entry — allocated port and roster —
under the room id. -/
def start_game_record (s : ServerState) (room_id port : Nat)
    (members : List String) : ServerState :=
  { s with games := nupd s.games room_id (port, members) }

/-- The exception handler of `start_game` (lines 631-635): when spawning
the match process fails, reset the room to idle.  The allocated port is
not handed back. -/
def start_game_rollback (s : ServerState) (room_id : Nat) : ServerState :=
  match s.rooms room_id with
  | Option.none => s
  | some room =>
    let room2 : Room := { room with status := "idle" }
    { s with rooms := nupd s.rooms room_id room2 }

/-- `cleanup_game` (lines 666-675), run by the reaper thread when a
match process exits: drop the match entry and reset the room to idle. -/
def cleanup_game (s : ServerState) (room_id : Nat) : ServerState :=
  let s1 : ServerState := { s with games := ndel s.games room_id }
  match s1.rooms room_id with
  | Option.none => s1
  | some room =>
    let room2 : Room := { room with status := "idle" }
    { s1 with rooms := nupd s1.rooms room_id room2 }

/-- One lobby operation that can run between two START_GAME requests:
every state-mutating handler plus the launcher's bookkeeping, its
spawn-failure rollback, and the reaper step that ends a match. -/
inductive LobbyOp where
  | opLogin : (String → String) → DBState → String → String → String → Nat → LobbyOp
  | opLogout : String → String → LobbyOp
  | opCreateRoom : String → String → String → String → Nat → Nat → LobbyOp
  | opJoinRoom : String → Nat → LobbyOp
  | opLeaveRoom : String → Nat → LobbyOp
  | opStartGame : Nat → String → LobbyOp
  | opStartRecord : Nat → Nat → List String → LobbyOp
  | opStartRollback : Nat → LobbyOp
  | opCleanupGame : Nat → LobbyOp

/-- Apply one operation to the lobby state; an operation whose handler
raises leaves the state as it was (each handler above raises, if at all,
before its first mutation). -/
def applyOp (op : LobbyOp) (s : ServerState) : ServerState :=
  match op with
  | .opLogin hashFn db name pw role sock => (login hashFn db s name pw role sock).2
  | .opLogout name role =>
    match logout s name role with
    | .ok r => r.2
    | .error _ => s
  | .opCreateRoom host vis gname ver maxp minp =>
    (create_room s host vis gname ver maxp minp).2
  | .opJoinRoom p rid =>
    match join_room s p rid with
    | .ok r => r.2
    | .error _ => s
  | .opLeaveRoom p rid => (leave_room s p rid).2
  | .opStartGame rid p =>
    match start_game_cs s rid p with
    | .ok r => r.2
    | .error _ => s
  | .opStartRecord rid port members => start_game_record s rid port members
  | .opStartRollback rid => start_game_rollback s rid
  | .opCleanupGame rid => cleanup_game s rid

/-- Run a sequence of lobby operations left to right. -/
def applyOps (ops : List LobbyOp) (s : ServerState) : ServerState :=
  ops.foldl (fun t op => applyOp op t) s

/-- `login` never touches the match-port counter. -/
theorem login_port (hashFn : String → String) (db : DBState) (s : ServerState)
    (name password role : String) (sock : Nat) :
    (login hashFn db s name password role sock).2.next_game_port = s.next_game_port := by
  unfold login
  repeat' split
  all_goals rfl

/-- `logout` never touches the match-port counter. -/
theorem logout_port (s : ServerState) (name role : String) (res : Bool × ServerState)
    (h : logout s name role = Except.ok res) :
    res.2.next_game_port = s.next_game_port := by
  unfold logout at h
  repeat' split at h
  all_goals cases h
  all_goals rfl

/-- `join_room` never touches the match-port counter. -/
theorem join_room_port (s : ServerState) (player : String) (room_id : Nat)
    (res : JoinResp × ServerState) (h : join_room s player room_id = Except.ok res) :
    res.2.next_game_port = s.next_game_port := by
  unfold join_room at h
  repeat' split at h
  all_goals cases h
  all_goals rfl

/-- `leave_room` never touches the match-port counter. -/
theorem leave_room_port (s : ServerState) (player : String) (room_id : Nat) :
    (leave_room s player room_id).2.next_game_port = s.next_game_port := by
  simp only [leave_room]
  repeat' split
  all_goals rfl

/-- `start_game_rollback` never touches the match-port counter. -/
theorem start_game_rollback_port (s : ServerState) (room_id : Nat) :
    (start_game_rollback s room_id).next_game_port = s.next_game_port := by
  simp only [start_game_rollback]
  repeat' split
  all_goals rfl

/-- `cleanup_game` never touches the match-port counter. -/
theorem cleanup_game_port (s : ServerState) (room_id : Nat) :
    (cleanup_game s room_id).next_game_port = s.next_game_port := by
  simp only [cleanup_game]
  repeat' split
  all_goals rfl

/-- The critical section never decreases the match-port counter. -/
theorem start_game_cs_port_mono (s : ServerState) (rid : Nat) (p : String)
    (res : StartResp × ServerState) (h : start_game_cs s rid p = Except.ok res) :
    s.next_game_port ≤ res.2.next_game_port := by
  unfold start_game_cs at h
  repeat' split at h
  all_goals cases h
  all_goals first
    | exact Nat.le_refl _
    | exact Nat.le_succ _

/-- No lobby operation ever decreases the match-port counter. -/
theorem applyOp_port_mono (op : LobbyOp) (s : ServerState) :
    s.next_game_port ≤ (applyOp op s).next_game_port := by
  cases op with
  | opLogin hashFn db name pw role sock =>
    exact Nat.le_of_eq (login_port hashFn db s name pw role sock).symm
  | opLogout name role =>
    cases heq : logout s name role with
    | ok r => simp [applyOp, heq, logout_port s name role r heq]
    | error e => simp [applyOp, heq]
  | opCreateRoom host vis gname ver maxp minp => exact Nat.le_refl _
  | opJoinRoom p rid =>
    cases heq : join_room s p rid with
    | ok r => simp [applyOp, heq, join_room_port s p rid r heq]
    | error e => simp [applyOp, heq]
  | opLeaveRoom p rid => exact Nat.le_of_eq (leave_room_port s p rid).symm
  | opStartGame rid p =>
    cases heq : start_game_cs s rid p with
    | ok r =>
      have := start_game_cs_port_mono s rid p r heq
      simpa [applyOp, heq] using this
    | error e => simp [applyOp, heq]
  | opStartRecord rid port members => exact Nat.le_refl _
  | opStartRollback rid => exact Nat.le_of_eq (start_game_rollback_port s rid).symm
  | opCleanupGame rid => exact Nat.le_of_eq (cleanup_game_port s rid).symm

/-- No sequence of lobby operations ever decreases the match-port
counter. -/
theorem applyOps_port_mono (ops : List LobbyOp) (s : ServerState) :
    s.next_game_port ≤ (applyOps ops s).next_game_port := by
  induction ops generalizing s with
  | nil => simp [applyOps]
  | cons op rest ih =>
    calc s.next_game_port ≤ (applyOp op s).next_game_port := applyOp_port_mono op s
      _ ≤ (applyOps rest (applyOp op s)).next_game_port := ih (applyOp op s)
      _ = (applyOps (op :: rest) s).next_game_port := by simp [applyOps]

/-- A successful pass through the critical section hands out exactly the
current counter value and bumps the counter by one. -/
theorem start_game_cs_port (s : ServerState) (rid : Nat) (p : String)
    (port : Nat) (s' : ServerState)
    (h : start_game_cs s rid p = Except.ok (StartResp.started port, s')) :
    port = s.next_game_port ∧ s'.next_game_port = s.next_game_port + 1 := by
  unfold start_game_cs at h
  cases hr : s.rooms rid with
  | none => rw [hr] at h; cases h
  | some room =>
    rw [hr] at h
    simp only at h
    split at h
    · cases h
    · split at h
      · cases h
      · split at h
        · cases h
        · simp only [Except.ok.injEq, Prod.mk.injEq, StartResp.started.injEq] at h
          obtain ⟨hp, hs⟩ := h
          subst hp
          subst hs
          exact ⟨rfl, rfl⟩

/-- C6: the match-port counter is process-wide and strictly increasing.
A successful START_GAME allocates the counter's current value and bumps
it, and no lobby operation — matches ending via the reaper included —
ever decreases it, so of any two successful starts separated by an
arbitrary operation sequence the later receives a strictly larger,
hence distinct, port. -/
theorem match_ports_never_reused (s0 : ServerState) (ops : List LobbyOp)
    (rid1 rid2 : Nat) (p1 p2 : String) {port1 port2 : Nat}
    {s1 s2 : ServerState}
    (h1 : start_game_cs s0 rid1 p1 = Except.ok (StartResp.started port1, s1))
    (h2 : start_game_cs (applyOps ops s1) rid2 p2
        = Except.ok (StartResp.started port2, s2)) :
    port1 < port2 ∧ port1 ≠ port2 := by
  obtain ⟨hp1, hn1⟩ := start_game_cs_port _ _ _ _ _ h1
  obtain ⟨hp2, _⟩ := start_game_cs_port _ _ _ _ _ h2
  have hmono := applyOps_port_mono ops s1
  have hlt : port1 < port2 := by omega
  exact ⟨hlt, Nat.ne_of_lt hlt⟩

/-- Witness for C6: in the one-room lobby the host starts the match
(port 44848), the match ends and the reaper resets the room, and a
second start by the host receives port 44849. -/
theorem match_ports_never_reused_witness : (44848 : Nat) < 44849 ∧ (44848 : Nat) ≠ 44849 := by
  exact match_ports_never_reused (oneRoomState fullRoom) [LobbyOp.opCleanupGame 1]
    1 1 "alice" "alice" rfl rfl

/-! ## Request dispatch envelope -/

/-- The actions `process_request` dispatches on (lines 169-222). -/
def lobbyActions : List String :=
  ["REGISTER", "LOGIN", "LOGOUT", "UPLOAD_GAME", "UPDATE_GAME", "REMOVE_GAME",
   "LIST_GAMES", "LIST_PLAYERS", "DOWNLOAD_GAME", "CREATE_ROOM", "JOIN_ROOM",
   "LIST_ROOMS", "LEAVE_ROOM", "START_GAME"]

/-- The reply dict of the unknown-action branch (line 217), with its
exact keys. -/
def unknownActionReply : List (String × PyVal) :=
  [("status", PyVal.str "error"), ("message", PyVal.str "Unknown action")]

/-- The envelope layer of `process_request` (lines 169-222): dispatch on
the action — `handler` abstracts the reply dict the matched handler
returns — falling through to the unknown-action reply, then echo a
truthy `requestId` into the reply dict.  The unknown-action branch
raises nothing, so `handle_client` sends the reply and keeps serving. -/
def process_request_envelope (handler : String → List (String × PyVal))
    (action : String) (requestId : Option PyVal) : List (String × PyVal) :=
  let response :=
    if action ∈ lobbyActions then handler action else unknownActionReply
  match requestId with
  | some rid => if rid.truthy then response ++ [("requestId", rid)] else response
  | Option.none => response

/-- C8 counterexample: the undefined action FOO is answered with the
dict whose keys are status and message — it has no success key (and no
error key), so the reply is not the success/error envelope the claim
states. -/
theorem unknown_action_reply_not_success_envelope :
    slookup (process_request_envelope (fun _ => []) "FOO" Option.none) "success"
        = Option.none ∧
    slookup (process_request_envelope (fun _ => []) "FOO" Option.none) "error"
        = Option.none ∧
    process_request_envelope (fun _ => []) "FOO" Option.none = unknownActionReply := by
  exact ⟨rfl, rfl, rfl⟩

/-- C8 amended: every request whose action is not a defined lobby action
is answered with the fixed dict of status error and message Unknown
action — not a success/error envelope — with the request's correlation
id echoed when present and truthy, no handler consulted, and the
connection staying open (the branch raises nothing). -/
theorem unknown_action_reply_shape (handler : String → List (String × PyVal))
    (action : String) (rid? : Option PyVal) (h : action ∉ lobbyActions) :
    process_request_envelope handler action rid?
      = (match rid? with
         | some rid =>
           if rid.truthy then unknownActionReply ++ [("requestId", rid)]
           else unknownActionReply
         | Option.none => unknownActionReply) := by
  unfold process_request_envelope
  rw [if_neg h]

/-- Witness for C8's amended claim: the action FOO with a truthy
correlation id gets the unknown-action dict plus the echoed id. -/
theorem unknown_action_reply_shape_witness :
    process_request_envelope (fun _ => []) "FOO" (some (PyVal.str "r1"))
      = unknownActionReply ++ [("requestId", PyVal.str "r1")] := by
  have h := unknown_action_reply_shape (fun _ => []) "FOO" (some (PyVal.str "r1"))
    (by decide)
  simpa using h

/-! ## Correlation client

`PlayerClient.send_request` and its receiver thread,
src/player/player.py lines 116-165. -/

/-- The pending-request map of the correlation client
(`PlayerClient.pending_requests`): correlation id → reply dict. -/
def PendingMap : Type := String → Option (List (String × PyVal))

/-- The fixed client-side timeout of `send_request` (player.py line
123), in seconds; the poll sleep is 0.01 s, so the budget is a fixed
finite number of polls. -/
def requestTimeoutSeconds : Nat := 5

/-- The reply value `send_request` returns when the wait expires
(player.py line 133) — an ordinary error dict, not an exception. -/
def requestTimeoutReply : List (String × PyVal) :=
  [("success", PyVal.bool false), ("error", PyVal.str "Request timeout")]

/-- One iteration of `send_request`'s polling loop (lines 126-131),
performed under the request lock: if the correlation id is present, pop
exactly that entry and return its reply; otherwise leave the map
untouched and sleep. -/
def pollStep (rid : String) (m : PendingMap) :
    Option (List (String × PyVal)) × PendingMap :=
  match m rid with
  | some resp => (some resp, sdel m rid)
  | Option.none => (Option.none, m)

/-- `send_request`'s wait (lines 123-133): poll once per sleep tick
until the fixed 5-second budget is spent; `polls` lists the pending map
as each lock acquisition observes it (the receiver thread may have
stored replies in between).  The first poll that finds the id returns
its reply; when none does, the loop falls through to the timeout
reply. -/
def sendRequestPolling (rid : String) : List PendingMap → List (String × PyVal)
  | [] => requestTimeoutReply
  | m :: rest =>
    match (pollStep rid m).1 with
    | some resp => resp
    | Option.none => sendRequestPolling rid rest

/-- C7: a request whose correlation id is never answered — the id is
absent from the pending map at every poll inside the fixed 5-second
window — makes `send_request` return the timeout error reply as a plain
value (the loop is total; no exception escapes), and no poll of the
unanswered wait mutates the pending map: each step hands on exactly the
map it observed, so every other pending entry is untouched. -/
theorem unanswered_request_times_out (rid : String) (polls : List PendingMap)
    (h : ∀ m ∈ polls, m rid = Option.none) :
    sendRequestPolling rid polls = requestTimeoutReply ∧
    ∀ m ∈ polls, (pollStep rid m).2 = m := by
  constructor
  · induction polls with
    | nil => rfl
    | cons m rest ih =>
      have hm := h m (List.mem_cons_self m rest)
      have hrest : ∀ x ∈ rest, x rid = Option.none :=
        fun x hx => h x (List.mem_cons_of_mem m hx)
      simp only [sendRequestPolling, pollStep, hm]
      exact ih hrest
  · intro m hm
    simp only [pollStep, h m hm]

/-- Witness for C7: a single poll that observes an empty pending map. -/
theorem unanswered_request_times_out_witness :
    sendRequestPolling "cid-1" [fun _ => Option.none] = requestTimeoutReply ∧
    ∀ m ∈ ([fun _ => Option.none] : List PendingMap),
      (pollStep "cid-1" m).2 = m := by
  exact unanswered_request_times_out "cid-1" [fun _ => Option.none]
    (fun m hm => by
      simp only [List.mem_singleton] at hm
      subst hm
      rfl)

/-! ## Game download -/

/-- One entry of `game_path.rglob('*')` in `download_game` (lines
414-440): its path relative to the game version directory, whether it is
a regular file, and its (base64-encoded) content. -/
structure FsEntry where
  relPath : List String
  isFile : Bool
  content : String
deriving DecidableEq

/-- The final component of a relative path — `file_path.name`. -/
def pathName (p : List String) : String := p.getLastD ""

/-- The files dict built by `download_game` (lines 425-432): every
regular file under the version directory keyed by its relative path,
except that any file named game_server.py is skipped. -/
def download_game_files (entries : List FsEntry) : List (List String × String) :=
  (entries.filter (fun e => e.isFile && pathName e.relPath != "game_server.py")).map
    (fun e => (e.relPath, e.content))

/-- C10: for a DOWNLOAD_GAME of an installed version, the reply's files
dict holds exactly the regular files of that version's directory other
than ones named game_server.py: every such file appears with its
content, everything that appears is such a file, and no entry named
game_server.py ever appears — players never receive the server
program. -/
theorem download_game_excludes_game_server (entries : List FsEntry) :
    (∀ e ∈ entries, e.isFile = true → pathName e.relPath ≠ "game_server.py" →
        (e.relPath, e.content) ∈ download_game_files entries) ∧
    (∀ pc ∈ download_game_files entries, ∃ e ∈ entries,
        e.relPath = pc.1 ∧ e.content = pc.2 ∧ e.isFile = true ∧
        pathName e.relPath ≠ "game_server.py") ∧
    (∀ pc ∈ download_game_files entries, pathName pc.1 ≠ "game_server.py") := by
  refine ⟨?_, ?_, ?_⟩
  · intro e he hf hn
    simp only [download_game_files, List.mem_map, List.mem_filter]
    exact ⟨e, ⟨he, by simp [hf, hn]⟩, rfl⟩
  · intro pc hpc
    simp only [download_game_files, List.mem_map, List.mem_filter] at hpc
    obtain ⟨e, ⟨he, hcond⟩, hpair⟩ := hpc
    simp only [Bool.and_eq_true, bne_iff_ne, ne_eq] at hcond
    exact ⟨e, he, by rw [← hpair], by rw [← hpair], hcond.1, hcond.2⟩
  · intro pc hpc
    simp only [download_game_files, List.mem_map, List.mem_filter] at hpc
    obtain ⟨e, ⟨_, hcond⟩, hpair⟩ := hpc
    simp only [Bool.and_eq_true, bne_iff_ne, ne_eq] at hcond
    rw [← hpair]
    exact hcond.2

/-- A two-file install: the game's server program and its client
program. -/
def demoEntries : List FsEntry :=
  [⟨["game_server.py"], true, "U0VSVkVS"⟩, ⟨["game_client.py"], true, "Q0xJRU5U"⟩]

/-- Witness for C10: the client program of the demo install is served
to the player. -/
theorem download_game_excludes_game_server_witness :
    (["game_client.py"], "Q0xJRU5U") ∈ download_game_files demoEntries := by
  exact (download_game_excludes_game_server demoEntries).1
    ⟨["game_client.py"], true, "Q0xJRU5U"⟩ (by decide) (by decide) (by decide)

end GameStore
